import Mathlib

/-!
Verification of the recording playback engine in app/test_runner.py.

The engine is async Python over the Playwright driver.  The shallow
embedding below models Python strings as Lean strings (in Lean 4.14 a
String wraps a list of code points, which matches Python string
semantics), Python exceptions as Except values, and every effectful
browser-driver operation as an oracle supplied in an environment
record.  Pure code (selector normalisation, retry accounting, the
candidate scan, the per-step control flow including the exception
handlers) is translated directly from the source.
-/

namespace HlxEngine

/-- Python str.startswith, on the code-point sequence. -/
def pyStartswith (s p : String) : Bool := p.data.isPrefixOf s.data

/-- Python slicing s[k:], dropping the first k code points. -/
def pyDrop (s : String) (k : Nat) : String := ⟨s.data.drop k⟩

/-- Python truthiness test for an optional string: None and the empty
string are falsy.  Used for the source line
if not result[ErrorMessage]. -/
def pyFalsyOptStr : Option String → Bool
  | none => true
  | some s => s.data.isEmpty

/-- Direct translation of normalize selector from app/test_runner.py:
the chain of startswith tests with their slice offsets, returning none
for the unsupported aria and pierce tags and the raw string verbatim in
the final else branch. -/
def normalize_selector (raw : String) : Option String :=
  if pyStartswith raw "aria/" then none
  else if pyStartswith raw "xpath/" then some ("xpath=" ++ pyDrop raw 6)
  else if pyStartswith raw "pierce/" then none
  else if pyStartswith raw "text/" then some ("text=" ++ pyDrop raw 5)
  else if pyStartswith raw "css/" then some (pyDrop raw 4)
  else if pyStartswith raw "testid/" then some ("[data-testid=\x27" ++ pyDrop raw 7 ++ "\x27]")
  else some raw

/-- One element matched by a locator, as the driver reports it to
try selectors: whether the wait for the attached state succeeds within
its 3000 ms bound, whether is visible returns true, and whether the
scroll into view plus the action closure succeed on it. -/
structure Candidate where
  attaches : Bool
  visible : Bool
  actionOk : Bool
deriving DecidableEq, Repr

/-- The for i in range(count) loop inside try selectors.  The whole
loop sits in one try block, so a candidate whose attached-wait or
action raises aborts the remaining candidates of this selector (the
except clause continues with the next selector); an attached but
invisible candidate falls through to the next candidate. -/
def tryCandidates : List Candidate → Nat → Option Nat
  | [], _ => none
  | c :: rest, i =>
    if c.attaches = false then none
    else if c.visible then (if c.actionOk then some i else none)
    else tryCandidates rest (i + 1)

/-- Inner loop of try selectors over the raw selectors of one group:
unsupported selectors are skipped, a selector with zero matches is
skipped, and the first selector whose candidate scan performs the
action yields the acted (normalized selector, candidate index). -/
def tryGroup (frame : String → List Candidate) : List String → Option (String × Nat)
  | [] => none
  | raw :: rest =>
    match normalize_selector raw with
    | none => tryGroup frame rest
    | some sel =>
      let cands := frame sel
      if cands.length = 0 then tryGroup frame rest
      else
        match tryCandidates cands 0 with
        | some i => some (sel, i)
        | none => tryGroup frame rest

/-- Direct translation of try selectors from app/test_runner.py,
with the frame abstracted as a map from a normalized locator to its
matches in document order.  Exhausting every group raises the terminal
message of the source. -/
def try_selectors (frame : String → List Candidate) : List (List String) → Except String (String × Nat)
  | [] => Except.error "Ingen fungerande selector hittades"
  | g :: gs =>
    match tryGroup frame g with
    | some res => Except.ok res
    | none => try_selectors frame gs

/-- Outcome record of try selectors with retries: the final outcome,
the number of pipeline attempts that were started, and the total time
spent in the frame wait-for-timeout calls between attempts. -/
structure RetryResult (α : Type) where
  outcome : Except String α
  attempts : Nat
  waitedMs : Nat
deriving Repr

/-- The for attempt in range(max retries) loop: each failed attempt is
followed by a frame wait of delay ms; running out of attempts raises
the terminal message of the source. -/
def retryAux (run : Nat → Except String α) (delay : Nat) : Nat → Nat → Nat → RetryResult α
  | 0, made, waited =>
    ⟨Except.error "Inget selektoralternativ fungerade efter flera försök", made, waited⟩
  | fuel + 1, made, waited =>
    match run made with
    | Except.ok a => ⟨Except.ok a, made + 1, waited⟩
    | Except.error _ => retryAux run delay fuel (made + 1) (waited + delay)

/-- Direct translation of try selectors with retries from
app/test_runner.py; the run argument is the selector pipeline for a
given attempt number (page content may change between attempts, which
is what the retries are for).  The source defaults are max retries 10
and delay 1000 ms. -/
def try_selectors_with_retries (run : Nat → Except String α) (maxRetries delayMs : Nat) : RetryResult α :=
  retryAux run delayMs maxRetries 0 0

/-- Boolean failure test on an Except value. -/
def isFailure : Except String α → Bool
  | Except.error _ => true
  | Except.ok _ => false

/-- One step of a recording.  Only the fields the engine reads are
modelled; text, key, delay and offset fields feed keyboard and pointer
driver calls whose outcomes the environment oracle abstracts. -/
structure Step where
  type : String
  frame : Option (List Nat)
  timeout : Option Nat
  url : Option String
  selectors : List (List String)
  source : Option String
  target : Option String
  width : Option Nat
  height : Option Nat
deriving DecidableEq, Repr

/-- A recording: a display title and the ordered steps. -/
structure Recording where
  title : Option String
  steps : List Step
deriving DecidableEq, Repr

/-- The PlaybackResult dictionary built by run test, with the fields it
is initialised with at the top of the function. -/
structure Result where
  Status : String
  ErrorMessage : Option String
  ErrorStack : Option String
  ScreenshotBase64 : Option String
  ScreenshotMissing : Bool
  DurationMs : Nat
  RunTime : String
deriving DecidableEq, Repr

/-- One driver page: whether it has been closed, and how many entries
its flat frames list has. -/
structure Page where
  closed : Bool
  numFrames : Nat
deriving DecidableEq, Repr

/-- Mutable run state of one playback: the pages of the context (index
0 is the page opened at startup), the current page variable, the
current frame variable (an index into the frames list of the current
page, 0 being the main frame), and the popup pages list filled by the
context page event (as page indices, open order).  The viewport mirrors
set viewport size calls. -/
structure RunState where
  pages : List Page
  pageIdx : Nat
  frameIdx : Nat
  popups : List Nat
  viewport : Option (Nat × Nat)
deriving DecidableEq, Repr

/-- Observational instrumentation of one playback, threaded by the step
loop and the two except clauses only: the number of evidence screenshot
calls made so far, and the step indices the loop has iterated. -/
structure Trace where
  shots : Nat
  visited : List Nat
deriving DecidableEq, Repr

/-- The page the page variable currently refers to. -/
def currentPage (s : RunState) : Page :=
  s.pages.getD s.pageIdx ⟨true, 0⟩

/-- Oracle environment abstracting the Playwright driver and the
clock.  Each effectful driver call of a step either succeeds or raises
with a message; candidates gives, per step index, attempt number and
normalized locator, the matching elements in document order;
screenshotOk and shotData drive the n-th evidence screenshot call;
popupSpawn lists the frame counts of popup pages opened while step i
runs; elapsedMs is the wall clock difference computed in the finally
clause, and runTime the UTC timestamp taken at invocation start. -/
structure Env where
  launch : Except String Unit
  mainFrames : Nat
  stepOp : Nat → Nat → Except String Unit
  candidates : Nat → Nat → String → List Candidate
  popupSpawn : Nat → List Nat
  screenshotOk : Nat → Bool
  shotData : Nat → String
  teardown : Except String Unit
  elapsedMs : Nat
  runTime : String

/-- Message of the TargetClosedError the driver raises when a call such
as page.title() is made on a closed page. -/
def targetClosedMsg : String := "Target page, context or browser has been closed"

/-- The default timeout table at the top of app/test_runner.py. -/
def DEFAULT_TIMEOUTS : List (String × Nat) :=
  [("navigate", 20000), ("click", 8000), ("change", 5000), ("hover", 5000),
   ("waitForSelector", 5000), ("default", 3000)]

/-- timeout = step.get(timeout, DEFAULT TIMEOUTS.get(type, default)). -/
def timeoutFor (step : Step) : Nat :=
  step.timeout.getD ((List.lookup step.type DEFAULT_TIMEOUTS).getD
    ((List.lookup "default" DEFAULT_TIMEOUTS).getD 0))

/-- The per-step failure message built in the step-level except clause:
Steg i+1/N (type) misslyckades: error. -/
def stepMsg (oneBased total : Nat) (ty emsg : String) : String :=
  "Steg " ++ toString oneBased ++ "/" ++ toString total ++ " (" ++ ty ++
    ") misslyckades: " ++ emsg

/-- Best-effort evidence screenshot shared by the step-level and the
outer except clauses: if the current page is open a capture is
attempted (counted in the state); success stores the base64 data and
clears ScreenshotMissing, a capture failure or a closed page only sets
ScreenshotMissing (ScreenshotBase64 is left as it was). -/
def captureEvidence (env : Env) (s : RunState) (shots : Nat) (r : Result) : Nat × Result :=
  if (currentPage s).closed = false then
    if env.screenshotOk shots then
      (shots + 1, { r with ScreenshotBase64 := some (env.shotData shots), ScreenshotMissing := false })
    else
      (shots + 1, { r with ScreenshotMissing := true })
  else
    (shots, { r with ScreenshotMissing := true })

/-- The step-level except clause: record the failure fields on the
result, attempt the evidence screenshot, and re-raise the original
error (the caller re-wraps it into the loop failure value). -/
def stepFail (env : Env) (i total : Nat) (ty emsg : String) (s : RunState) (shots : Nat)
    (r : Result) : Nat × Result :=
  let r1 := { r with
    Status := "failed",
    ErrorMessage := some (stepMsg (i + 1) total ty emsg),
    ErrorStack := some ("Traceback: " ++ emsg) }
  captureEvidence env s shots r1

/-- Pages opened by the context page event while step i runs. -/
def spawnPopups (env : Env) (i : Nat) (s : RunState) : RunState :=
  (env.popupSpawn i).foldl
    (fun st nf => { st with
      pages := st.pages ++ [⟨false, nf⟩],
      popups := st.popups ++ [st.pages.length] }) s

/-- Lift a driver-oracle call into the step action, pairing a raise
with the state at the raise point. -/
def liftOp (env : Env) (i t : Nat) (s : RunState) : Except (String × RunState) RunState :=
  match env.stepOp i t with
  | Except.ok _ => Except.ok s
  | Except.error e => Except.error (e, s)

/-- An interactive step routed through the retry wrapper and the
selector pipeline on the current frame content for each attempt. -/
def runInteractive (env : Env) (i : Nat) (step : Step) (s : RunState) :
    Except (String × RunState) RunState :=
  match (try_selectors_with_retries
      (fun attempt => Except.map (fun _ => ()) (try_selectors (env.candidates i attempt) step.selectors))
      10 1000).outcome with
  | Except.ok _ => Except.ok s
  | Except.error e => Except.error (e, s)

/-- page.close() marks the current page closed. -/
def closeCurrentPage (s : RunState) : RunState :=
  { s with pages := s.pages.set s.pageIdx { currentPage s with closed := true } }

/-- The if/elif dispatch chain of the step loop, in source order.  A
raise carries the state at the raise point, since Python mutations made
before the raise stay visible to the except clause. -/
def stepAction (env : Env) (i : Nat) (step : Step) (s : RunState) :
    Except (String × RunState) RunState :=
  let t := timeoutFor step
  let ty := step.type
  if ty = "navigate" then
    let url := step.url.getD ""
    if pyStartswith url "edge://" || pyStartswith url "chrome://" || pyStartswith url "about:" then
      Except.error ("Ogiltig eller osupportad URL: " ++ url, s)
    else liftOp env i t s
  else if ty = "switchToPopup" then
    match s.popups.getLast? with
    | some pidx => Except.ok { s with pageIdx := pidx, frameIdx := 0 }
    | none => Except.error ("Inget popup-fönster hittades", s)
  else if ty = "switchToMain" then
    Except.ok { s with pageIdx := 0, frameIdx := 0 }
  else if ty = "click" then runInteractive env i step s
  else if ty = "doubleClick" then runInteractive env i step s
  else if ty = "rightClick" then runInteractive env i step s
  else if ty = "type" then liftOp env i t s
  else if ty = "press" then liftOp env i t s
  else if ty = "dragAndDrop" then
    match step.source, step.target with
    | some src, some tgt =>
      if src.data.isEmpty || tgt.data.isEmpty then Except.ok s
      else
        match normalize_selector src, normalize_selector tgt with
        | some _, some _ => liftOp env i t s
        | _, _ => Except.ok s
    | _, _ => Except.ok s
  else if ty = "change" then runInteractive env i step s
  else if ty = "hover" then runInteractive env i step s
  else if ty = "waitForSelector" then runInteractive env i step s
  else if ty = "keyDown" then liftOp env i t s
  else if ty = "keyUp" then liftOp env i t s
  else if ty = "setViewport" then
    match step.width, step.height with
    | some w, some h => Except.map (fun s1 => { s1 with viewport := some (w, h) }) (liftOp env i t s)
    | _, _ => Except.map (fun s1 => { s1 with viewport := some (1280, 720) }) (liftOp env i t s)
  else if ty = "scroll" then liftOp env i t s
  else if ty = "waitForTimeout" then liftOp env i t s
  else if ty = "screenshot" then liftOp env i t s
  else if ty = "close" then Except.map closeCurrentPage (liftOp env i t s)
  else if ty = "assert" then liftOp env i t s
  else Except.ok s

/-- One dispatched step: the elif chain, the popup registrations, and
then the debug line after the chain, whose page.title() call raises a
TargetClosedError whenever the current page has been closed. -/
def dispatchStep (env : Env) (i : Nat) (step : Step) (s : RunState) :
    Except (String × RunState) RunState :=
  match stepAction env i step s with
  | Except.error es => Except.error es
  | Except.ok s1 =>
    let s2 := spawnPopups env i s1
    if (currentPage s2).closed then Except.error (targetClosedMsg, s2)
    else Except.ok s2

/-- Failure value carried out of the step loop: the failing step index
and type, the original error message that is re-raised, the state at
the raise point, and the trace and result after the step-level except
clause ran. -/
structure LoopFail where
  idx : Nat
  stepType : String
  emsg : String
  state : RunState
  trace : Trace
  result : Result
deriving DecidableEq, Repr

/-- Frame resolution at the top of each loop iteration: only the first
index of the frame path is read; an empty path (an IndexError) or an
out-of-range index against the frames list of the current page is a
warning that skips the step.  some fi means the active frame switches
to fi before the step body. -/
def resolveFrame (s : RunState) (path : List Nat) : Option Nat :=
  match path with
  | [] => none
  | fi :: _ => if fi < (currentPage s).numFrames then some fi else none

/-- The try block of one loop iteration plus its except clause, with
the continuation k running the remaining steps.  The trace passed in
already records the current iteration. -/
def stepAfterFrame (env : Env) (total i : Nat) (step : Step) (s : RunState) (tr : Trace)
    (r : Result) (k : RunState → Except LoopFail (RunState × Trace × Result)) :
    Except LoopFail (RunState × Trace × Result) :=
  match dispatchStep env i step s with
  | Except.ok s2 => k s2
  | Except.error (e, sErr) =>
    let p := stepFail env i total step.type e sErr tr.shots r
    Except.error ⟨i, step.type, e, sErr, ⟨p.1, tr.visited⟩, p.2⟩

/-- The for i, step in enumerate(...) loop of run test. -/
def stepLoop (env : Env) (total : Nat) :
    List Step → Nat → RunState → Trace → Result → Except LoopFail (RunState × Trace × Result)
  | [], _, s, tr, r => Except.ok (s, tr, r)
  | step :: rest, i, s, tr, r =>
    let tv : Trace := ⟨tr.shots, tr.visited ++ [i]⟩
    match step.frame with
    | none =>
      stepAfterFrame env total i step s tv r
        (fun s2 => stepLoop env total rest (i + 1) s2 tv r)
    | some path =>
      match resolveFrame s path with
      | none => stepLoop env total rest (i + 1) s tv r
      | some fi =>
        stepAfterFrame env total i step { s with frameIdx := fi } tv r
          (fun s2 => stepLoop env total rest (i + 1) s2 tv r)

/-- Failure value reaching the outer except clause: which step raised
(if any), the message of the raised error, the run state if the page
was already created, the trace, and the result as mutated so far. -/
structure FailInfo where
  fromStep : Option (Nat × String)
  msg : String
  state : Option RunState
  trace : Trace
  result : Result
deriving DecidableEq, Repr

/-- The result dictionary as initialised at the top of run test. -/
def initResult (env : Env) : Result :=
  { Status := "passed", ErrorMessage := none, ErrorStack := none,
    ScreenshotBase64 := none, ScreenshotMissing := true,
    DurationMs := 0, RunTime := env.runTime }

/-- Session state right after browser, context and page creation. -/
def initState (env : Env) : RunState :=
  { pages := [⟨false, env.mainFrames⟩], pageIdx := 0, frameIdx := 0,
    popups := [], viewport := none }

/-- The try block of run test: session startup, the step loop, then
browser.close(); every raise becomes a FailInfo for the outer except
clause. -/
def runBody (env : Env) (rec : Recording) : Except FailInfo (RunState × Trace × Result) :=
  let r0 := initResult env
  match env.launch with
  | Except.error e => Except.error ⟨none, e, none, ⟨0, []⟩, r0⟩
  | Except.ok _ =>
    match stepLoop env rec.steps.length rec.steps 0 (initState env) ⟨0, []⟩ r0 with
    | Except.error lf =>
      Except.error ⟨some (lf.idx, lf.stepType), lf.emsg, some lf.state, lf.trace, lf.result⟩
    | Except.ok (s, tr, r) =>
      match env.teardown with
      | Except.error e => Except.error ⟨none, e, some s, tr, r⟩
      | Except.ok _ => Except.ok (s, tr, r)

/-- The outer except clause of run test: force Status to failed, set
ErrorMessage only if it is still falsy (first failure wins), overwrite
ErrorStack, and attempt the evidence screenshot again (page may be None
when session startup failed).  Returns the evidence capture count with
the result. -/
def outerHandler (env : Env) (f : FailInfo) : Nat × Result :=
  let r1 := { f.result with Status := "failed" }
  let r2 := if pyFalsyOptStr r1.ErrorMessage then { r1 with ErrorMessage := some f.msg } else r1
  let r3 := { r2 with ErrorStack := some ("Traceback: " ++ f.msg) }
  match f.state with
  | some s => captureEvidence env s f.trace.shots r3
  | none => (f.trace.shots, { r3 with ScreenshotMissing := true })

/-- run test with the count of evidence screenshot calls alongside the
result; the finally clause stamps DurationMs before returning. -/
def runTestTraced (env : Env) (rec : Recording) : Result × Nat :=
  match runBody env rec with
  | Except.ok (_, tr, r) => ({ r with DurationMs := env.elapsedMs }, tr.shots)
  | Except.error f =>
    let p := outerHandler env f
    ({ p.2 with DurationMs := env.elapsedMs }, p.1)

/-- Direct translation of run test from app/test_runner.py over the
driver oracle: the try/except/finally structure guarantees a Result
value on every path. -/
def run_test (env : Env) (rec : Recording) : Result :=
  (runTestTraced env rec).1

/-- The failure value the outer except clause received, if any. -/
def bodyFailInfo (env : Env) (rec : Recording) : Option FailInfo :=
  match runBody env rec with
  | Except.error f => some f
  | Except.ok _ => none

/-- Decidable statement that playback raised out of step m (0-based)
of type ty. -/
def failedAtStep (env : Env) (rec : Recording) (m : Nat) (ty : String) : Bool :=
  match runBody env rec with
  | Except.error f => if f.fromStep = some (m, ty) then true else false
  | Except.ok _ => false

/-- The visited step indices at the moment the loop raised. -/
def failVisited (env : Env) (rec : Recording) : Option (List Nat) :=
  match runBody env rec with
  | Except.error f => some f.trace.visited
  | Except.ok _ => none

/-- Whether the current page was still open when the outer except
clause ran. -/
def failPageOpen (env : Env) (rec : Recording) : Bool :=
  match runBody env rec with
  | Except.error f =>
    match f.state with
    | some s => !(currentPage s).closed
    | none => false
  | Except.ok _ => false

/-! Concrete inputs used by witnesses and counterexamples. -/

/-- A benign driver oracle: session startup, every step operation, the
teardown and every screenshot call succeed; one frame on the page. -/
def benignEnv : Env :=
  { launch := Except.ok (), mainFrames := 1,
    stepOp := fun _ _ => Except.ok (),
    candidates := fun _ _ _ => [],
    popupSpawn := fun _ => [],
    screenshotOk := fun _ => true,
    shotData := fun n => if n == 0 then "shot0" else "shot1",
    teardown := Except.ok (), elapsedMs := 42, runTime := "2025-01-01T00:00:00Z" }

/-- The benign oracle with every screenshot call failing. -/
def envShotsOff : Env := { benignEnv with screenshotOk := fun _ => false }

/-- The benign oracle where only the first screenshot call succeeds. -/
def envShotsFirst : Env := { benignEnv with screenshotOk := fun n => n == 0 }

/-- A step with only a type. -/
def mkStep (ty : String) : Step :=
  { type := ty, frame := none, timeout := none, url := none,
    selectors := [], source := none, target := none, width := none, height := none }

/-- A navigate step to the given URL. -/
def navStep (u : String) : Step := { mkStep "navigate" with url := some u }

/-- One navigate step to a rejected about: URL. -/
def navRec1 : Recording := ⟨none, [navStep "about:blank"]⟩

/-- A rejected navigate step followed by a click step. -/
def navRec2 : Recording := ⟨none, [navStep "about:blank", mkStep "click"]⟩

/-- A recording consisting of one close step. -/
def closeRec : Recording := ⟨none, [mkStep "close"]⟩

/-- A scroll step carrying the frame path [0, 5]. -/
def frameStep : Step := { mkStep "scroll" with frame := some [0, 5] }

/-- The empty recording. -/
def emptyRec : Recording := ⟨some "empty", []⟩

/-! Support lemmas for the retry wrapper. -/

lemma pyStartswith_append (p q : String) : pyStartswith (p ++ q) p = true := by
  simp [pyStartswith]

lemma retryAux_attempts_le (run : Nat → Except String α) (delay : Nat) :
    ∀ fuel made waited, (retryAux run delay fuel made waited).attempts ≤ made + fuel := by
  intro fuel
  induction fuel with
  | zero => intro made waited; simp [retryAux]
  | succ f ih =>
    intro made waited
    cases hr : run made with
    | ok a => simp only [retryAux, hr]; omega
    | error e =>
      simp only [retryAux, hr]
      have h := ih (made + 1) (waited + delay)
      omega

lemma retryAux_all_fail (run : Nat → Except String α) (delay : Nat) :
    ∀ fuel made waited,
      (∀ j, made ≤ j → j < made + fuel → isFailure (run j) = true) →
      retryAux run delay fuel made waited =
        ⟨Except.error "Inget selektoralternativ fungerade efter flera försök",
         made + fuel, waited + fuel * delay⟩ := by
  intro fuel
  induction fuel with
  | zero => intro made waited _; simp [retryAux]
  | succ f ih =>
    intro made waited h
    have hm : isFailure (run made) = true := h made (Nat.le_refl _) (by omega)
    cases hr : run made with
    | ok a => rw [hr] at hm; simp [isFailure] at hm
    | error e =>
      simp only [retryAux, hr]
      rw [ih (made + 1) (waited + delay) (fun j h1 h2 => h j (by omega) (by omega))]
      have h1 : made + 1 + f = made + (f + 1) := by omega
      have h2 : waited + delay + f * delay = waited + (f + 1) * delay := by
        rw [Nat.succ_mul]; omega
      rw [h1, h2]

lemma retryAux_first_success (run : Nat → Except String Unit) (delay : Nat) :
    ∀ fuel made waited t,
      (∀ j, made ≤ j → j < made + t → isFailure (run j) = true) →
      isFailure (run (made + t)) = false →
      t < fuel →
      retryAux run delay fuel made waited =
        ⟨Except.ok (), made + t + 1, waited + t * delay⟩ := by
  intro fuel
  induction fuel with
  | zero => intro made waited t _ _ hlt; omega
  | succ f ih =>
    intro made waited t hfail hsucc hlt
    cases t with
    | zero =>
      cases hr : run made with
      | ok a => cases a; simp [retryAux, hr]
      | error e => rw [Nat.add_zero made, hr] at hsucc; simp [isFailure] at hsucc
    | succ t1 =>
      have hm : isFailure (run made) = true := hfail made (Nat.le_refl _) (by omega)
      cases hr : run made with
      | ok a => rw [hr] at hm; simp [isFailure] at hm
      | error e =>
        simp only [retryAux, hr]
        rw [ih (made + 1) (waited + delay) t1
          (fun j h1 h2 => hfail j (by omega) (by omega))
          (by have h3 : made + 1 + t1 = made + (t1 + 1) := by omega
              rw [h3]; exact hsucc)
          (by omega)]
        have h1 : made + 1 + t1 + 1 = made + (t1 + 1) + 1 := by omega
        have h2 : waited + delay + t1 * delay = waited + (t1 + 1) * delay := by
          rw [Nat.succ_mul]; omega
        rw [h1, h2]

/-- C3.  The retry wrapper performs at most 10 pipeline attempts, with
the 1000 ms frame wait after each failed attempt; a pipeline that first
succeeds on attempt k (1-based, k at most 10) makes exactly k attempts
and waited (k-1) times 1000 ms; a pipeline failing on all 10 attempts
yields the terminal locator-exhaustion message of the source. -/
theorem retry_wrapper_policy :
    (∀ run : Nat → Except String Unit,
       (try_selectors_with_retries run 10 1000).attempts ≤ 10) ∧
    (∀ (run : Nat → Except String Unit) (k : Nat), 1 ≤ k → k ≤ 10 →
       (∀ j, j < k - 1 → isFailure (run j) = true) →
       isFailure (run (k - 1)) = false →
       try_selectors_with_retries run 10 1000 =
         ⟨Except.ok (), k, (k - 1) * 1000⟩) ∧
    (∀ run : Nat → Except String Unit,
       (∀ j, j < 10 → isFailure (run j) = true) →
       try_selectors_with_retries run 10 1000 =
         ⟨Except.error "Inget selektoralternativ fungerade efter flera försök", 10, 10000⟩) := by
  refine ⟨?_, ?_, ?_⟩
  · intro run
    have h := retryAux_attempts_le run 1000 10 0 0
    simpa [try_selectors_with_retries] using h
  · intro run k hk1 hk10 hfail hsucc
    have h := retryAux_first_success run 1000 10 0 0 (k - 1)
      (by intro j h1 h2; exact hfail j (by omega))
      (by simpa using hsucc) (by omega)
    rw [try_selectors_with_retries, h]
    have : 0 + (k - 1) + 1 = k := by omega
    rw [this, Nat.zero_add]
  · intro run hfail
    have h := retryAux_all_fail run 1000 10 0 0 (by intro j h1 h2; exact hfail j (by omega))
    rw [try_selectors_with_retries, h]

/-- Witness for C3: a pipeline failing on attempts 1 and 2 and
succeeding on attempt 3 makes exactly 3 attempts with 2000 ms waited. -/
theorem retry_wrapper_policy_witness :
    try_selectors_with_retries (fun j => if j < 2 then Except.error "x" else Except.ok ()) 10 1000 =
      ⟨Except.ok (), 3, 2000⟩ := by
  have h := retry_wrapper_policy.2.1 (fun j => if j < 2 then Except.error "x" else Except.ok ())
    3 (by omega) (by omega) (by decide) (by decide)
  exact h

/-! Support lemma for the candidate resolver. -/

lemma tryCandidates_first_visible :
    ∀ (cs : List Candidate) (i : Nat),
      (∀ c ∈ cs, c.attaches = true) → (∀ c ∈ cs, c.actionOk = true) →
      tryCandidates cs i = cs.findIdx? (fun c => c.visible) i := by
  intro cs
  induction cs with
  | nil => intro i _ _; rfl
  | cons c rest ih =>
    intro i hatt hact
    have hc : c.attaches = true := hatt c (List.mem_cons_self _ _)
    have ha : c.actionOk = true := hact c (List.mem_cons_self _ _)
    simp only [tryCandidates, hc, ha, List.findIdx?_cons]
    cases hv : c.visible with
    | true => simp [hv]
    | false =>
      simp only [hv, Bool.false_eq_true, if_false, Bool.true_eq_false]
      exact ih (i + 1) (fun x hx => hatt x (List.mem_cons_of_mem _ hx))
        (fun x hx => hact x (List.mem_cons_of_mem _ hx))

/-- C4 (amended).  When every match of a selector stays attached and
accepts the action, the resolver acts on the first visible match in
document order, and reports the terminal no-working-selector error when
no match is visible; in particular with three attached matches of which
only the second is visible, the action lands on index 1. -/
theorem resolver_first_visible (cs : List Candidate)
    (hatt : ∀ c ∈ cs, c.attaches = true) (hact : ∀ c ∈ cs, c.actionOk = true) :
    try_selectors (fun _ => cs) [["option-a"]] =
      (match cs.findIdx? (fun c => c.visible) with
       | some i => Except.ok ("option-a", i)
       | none => Except.error "Ingen fungerande selector hittades") := by
  have hnorm : normalize_selector "option-a" = some "option-a" := by rfl
  cases cs with
  | nil => rfl
  | cons c rest =>
    simp only [try_selectors, tryGroup, hnorm, List.length_cons]
    rw [if_neg (by omega)]
    rw [tryCandidates_first_visible (c :: rest) 0 hatt hact]
    cases h : (c :: rest).findIdx? (fun c => c.visible) with
    | none => simp [h, try_selectors, tryGroup]
    | some j => simp [h]

/-- Witness for C4 (amended): three attached matches, only the second
visible, and the resolver acts on index 1. -/
theorem resolver_first_visible_witness :
    try_selectors (fun _ => [⟨true, false, true⟩, ⟨true, true, true⟩, ⟨true, false, true⟩])
        [["option-a"]] = Except.ok ("option-a", 1) := by
  have h := resolver_first_visible
    [⟨true, false, true⟩, ⟨true, true, true⟩, ⟨true, false, true⟩]
    (by decide) (by decide)
  exact h.trans (by rfl)

/-- Counterexample for C4 as stated: the first match of the selector
never attaches and the second is attached and visible; the claim says
the resolver skips to the second match of the same selector and acts on
it, but the attached-wait raise aborts the whole candidate loop of this
selector (the except clause moves to the next selector), so the call
exhausts every selector and raises instead of acting. -/
theorem resolver_nonattaching_aborts_selector :
    try_selectors (fun _ => [⟨false, true, true⟩, ⟨true, true, true⟩]) [["option-b"]] =
      Except.error "Ingen fungerande selector hittades" := by rfl

/-- C7.  The selector normalizer is a pure total function with the
documented mapping: aria and pierce selectors are unsupported, xpath,
text, css and testid selectors are rewritten from their tag, and any
untagged string passes through verbatim as a CSS selector. -/
theorem normalize_selector_total :
    (∀ rest : String, normalize_selector ("aria/" ++ rest) = none) ∧
    (∀ rest : String, normalize_selector ("pierce/" ++ rest) = none) ∧
    (∀ rest : String, normalize_selector ("xpath/" ++ rest) = some ("xpath=" ++ rest)) ∧
    (∀ rest : String, normalize_selector ("text/" ++ rest) = some ("text=" ++ rest)) ∧
    (∀ rest : String, normalize_selector ("css/" ++ rest) = some rest) ∧
    (∀ rest : String, normalize_selector ("testid/" ++ rest) =
       some ("[data-testid=\x27" ++ rest ++ "\x27]")) ∧
    (∀ raw : String,
       pyStartswith raw "aria/" = false → pyStartswith raw "xpath/" = false →
       pyStartswith raw "pierce/" = false → pyStartswith raw "text/" = false →
       pyStartswith raw "css/" = false → pyStartswith raw "testid/" = false →
       normalize_selector raw = some raw) := by
  refine ⟨?_, ?_, ?_, ?_, ?_, ?_, ?_⟩
  · intro rest; obtain ⟨l⟩ := rest
    have t1 : pyStartswith ("aria/" ++ (⟨l⟩ : String)) "aria/" = true := pyStartswith_append _ _
    simp [normalize_selector, t1]
  · intro rest; obtain ⟨l⟩ := rest
    have f1 : pyStartswith ("pierce/" ++ (⟨l⟩ : String)) "aria/" = false := rfl
    have f2 : pyStartswith ("pierce/" ++ (⟨l⟩ : String)) "xpath/" = false := rfl
    have t1 : pyStartswith ("pierce/" ++ (⟨l⟩ : String)) "pierce/" = true := pyStartswith_append _ _
    simp [normalize_selector, f1, f2, t1]
  · intro rest; obtain ⟨l⟩ := rest
    have f1 : pyStartswith ("xpath/" ++ (⟨l⟩ : String)) "aria/" = false := rfl
    have t1 : pyStartswith ("xpath/" ++ (⟨l⟩ : String)) "xpath/" = true := pyStartswith_append _ _
    have hd : pyDrop ("xpath/" ++ (⟨l⟩ : String)) 6 = ⟨l⟩ := rfl
    simp [normalize_selector, f1, t1, hd]
  · intro rest; obtain ⟨l⟩ := rest
    have f1 : pyStartswith ("text/" ++ (⟨l⟩ : String)) "aria/" = false := rfl
    have f2 : pyStartswith ("text/" ++ (⟨l⟩ : String)) "xpath/" = false := rfl
    have f3 : pyStartswith ("text/" ++ (⟨l⟩ : String)) "pierce/" = false := rfl
    have t1 : pyStartswith ("text/" ++ (⟨l⟩ : String)) "text/" = true := pyStartswith_append _ _
    have hd : pyDrop ("text/" ++ (⟨l⟩ : String)) 5 = ⟨l⟩ := rfl
    simp [normalize_selector, f1, f2, f3, t1, hd]
  · intro rest; obtain ⟨l⟩ := rest
    have f1 : pyStartswith ("css/" ++ (⟨l⟩ : String)) "aria/" = false := rfl
    have f2 : pyStartswith ("css/" ++ (⟨l⟩ : String)) "xpath/" = false := rfl
    have f3 : pyStartswith ("css/" ++ (⟨l⟩ : String)) "pierce/" = false := rfl
    have f4 : pyStartswith ("css/" ++ (⟨l⟩ : String)) "text/" = false := rfl
    have t1 : pyStartswith ("css/" ++ (⟨l⟩ : String)) "css/" = true := pyStartswith_append _ _
    have hd : pyDrop ("css/" ++ (⟨l⟩ : String)) 4 = ⟨l⟩ := rfl
    simp [normalize_selector, f1, f2, f3, f4, t1, hd]
  · intro rest; obtain ⟨l⟩ := rest
    have f1 : pyStartswith ("testid/" ++ (⟨l⟩ : String)) "aria/" = false := rfl
    have f2 : pyStartswith ("testid/" ++ (⟨l⟩ : String)) "xpath/" = false := rfl
    have f3 : pyStartswith ("testid/" ++ (⟨l⟩ : String)) "pierce/" = false := rfl
    have f4 : pyStartswith ("testid/" ++ (⟨l⟩ : String)) "text/" = false := rfl
    have f5 : pyStartswith ("testid/" ++ (⟨l⟩ : String)) "css/" = false := rfl
    have t1 : pyStartswith ("testid/" ++ (⟨l⟩ : String)) "testid/" = true := pyStartswith_append _ _
    have hd : pyDrop ("testid/" ++ (⟨l⟩ : String)) 7 = ⟨l⟩ := rfl
    simp [normalize_selector, f1, f2, f3, f4, f5, t1, hd]
  · intro raw h1 h2 h3 h4 h5 h6
    simp [normalize_selector, h1, h2, h3, h4, h5, h6]

/-- Witness for C7 at the spec examples: an aria selector is
unsupported, a testid selector becomes the data-testid attribute query,
and an untagged selector passes through unchanged. -/
theorem normalize_selector_total_witness :
    normalize_selector "aria/Submit" = none ∧
    normalize_selector "testid/login-btn" = some "[data-testid=\x27login-btn\x27]" ∧
    normalize_selector "plain-selector" = some "plain-selector" := by
  refine ⟨normalize_selector_total.1 "Submit", ?_, ?_⟩
  · exact normalize_selector_total.2.2.2.2.2.1 "login-btn"
  · exact normalize_selector_total.2.2.2.2.2.2 "plain-selector"
      (by decide) (by decide) (by decide) (by decide) (by decide) (by decide)

/-! Structural lemmas about the playback orchestrator. -/

lemma captureEvidence_keeps (env : Env) (s : RunState) (shots : Nat) (r : Result) :
    ((captureEvidence env s shots r).2).Status = r.Status ∧
    ((captureEvidence env s shots r).2).ErrorMessage = r.ErrorMessage ∧
    ((captureEvidence env s shots r).2).ErrorStack = r.ErrorStack ∧
    ((captureEvidence env s shots r).2).RunTime = r.RunTime ∧
    ((captureEvidence env s shots r).2).DurationMs = r.DurationMs := by
  unfold captureEvidence
  split
  · split
    · exact ⟨rfl, rfl, rfl, rfl, rfl⟩
    · exact ⟨rfl, rfl, rfl, rfl, rfl⟩
  · exact ⟨rfl, rfl, rfl, rfl, rfl⟩

lemma stepFail_result (env : Env) (i total : Nat) (ty e : String) (s : RunState)
    (shots : Nat) (r : Result) :
    ((stepFail env i total ty e s shots r).2).Status = "failed" ∧
    ((stepFail env i total ty e s shots r).2).ErrorMessage = some (stepMsg (i + 1) total ty e) ∧
    ((stepFail env i total ty e s shots r).2).RunTime = r.RunTime := by
  simp only [stepFail]
  have h := captureEvidence_keeps env s shots
    { r with
      Status := "failed"
      ErrorMessage := some (stepMsg (i + 1) total ty e)
      ErrorStack := some ("Traceback: " ++ e) }
  exact ⟨h.1, h.2.1, h.2.2.2.1⟩

lemma stepMsg_not_falsy (a b : Nat) (ty e : String) :
    pyFalsyOptStr (some (stepMsg a b ty e)) = false := by
  have hd : ("Steg ").data = ['S', 't', 'e', 'g', ' '] := rfl
  simp [pyFalsyOptStr, stepMsg, hd]

lemma outerHandler_fields (env : Env) (f : FailInfo) :
    ((outerHandler env f).2).Status = "failed" ∧
    ((outerHandler env f).2).RunTime = f.result.RunTime ∧
    ((outerHandler env f).2).ErrorMessage =
      (if pyFalsyOptStr f.result.ErrorMessage then some f.msg else f.result.ErrorMessage) := by
  simp only [outerHandler]
  cases hst : f.state with
  | none =>
    by_cases hf : pyFalsyOptStr f.result.ErrorMessage <;> simp [hf]
  | some s =>
    by_cases hf : pyFalsyOptStr f.result.ErrorMessage
    · have h := captureEvidence_keeps env s f.trace.shots
        { f.result with
          Status := "failed"
          ErrorMessage := some f.msg
          ErrorStack := some ("Traceback: " ++ f.msg) }
      simp only [hf, if_true]
      exact ⟨h.1, h.2.2.2.1, h.2.1⟩
    · have h := captureEvidence_keeps env s f.trace.shots
        { f.result with
          Status := "failed"
          ErrorStack := some ("Traceback: " ++ f.msg) }
      simp only [hf, if_false, Bool.false_eq_true]
      exact ⟨h.1, h.2.2.2.1, h.2.1⟩

lemma stepAfterFrame_cases (env : Env) (total i : Nat) (step : Step) (s : RunState)
    (tr : Trace) (r : Result) (k : RunState → Except LoopFail (RunState × Trace × Result)) :
    (∃ s2, dispatchStep env i step s = Except.ok s2 ∧
       stepAfterFrame env total i step s tr r k = k s2) ∨
    (∃ e sErr, dispatchStep env i step s = Except.error (e, sErr) ∧
       stepAfterFrame env total i step s tr r k =
         Except.error ⟨i, step.type, e, sErr,
           ⟨(stepFail env i total step.type e sErr tr.shots r).1, tr.visited⟩,
           (stepFail env i total step.type e sErr tr.shots r).2⟩) := by
  unfold stepAfterFrame
  cases hd : dispatchStep env i step s with
  | ok s2 => exact Or.inl ⟨s2, rfl, rfl⟩
  | error es => obtain ⟨e, sErr⟩ := es; exact Or.inr ⟨e, sErr, rfl, rfl⟩

lemma stepLoop_ok (env : Env) (total : Nat) :
    ∀ (steps : List Step) (i : Nat) (s : RunState) (tr : Trace) (r : Result)
      (out : RunState × Trace × Result),
      stepLoop env total steps i s tr r = Except.ok out →
      out.2.2 = r ∧ out.2.1.shots = tr.shots := by
  intro steps
  induction steps with
  | nil =>
    intro i s tr r out h
    simp only [stepLoop] at h
    cases h
    exact ⟨rfl, rfl⟩
  | cons step rest ih =>
    intro i s tr r out h
    simp only [stepLoop] at h
    cases hf : step.frame with
    | none =>
      simp only [hf] at h
      rcases stepAfterFrame_cases env total i step s ⟨tr.shots, tr.visited ++ [i]⟩ r
          (fun s2 => stepLoop env total rest (i + 1) s2 ⟨tr.shots, tr.visited ++ [i]⟩ r) with
        ⟨s2, _, heq⟩ | ⟨e, sErr, _, heq⟩
      · rw [heq] at h
        exact ih (i + 1) s2 ⟨tr.shots, tr.visited ++ [i]⟩ r out h
      · rw [heq] at h
        exact absurd h (by simp)
    | some path =>
      simp only [hf] at h
      cases hr : resolveFrame s path with
      | none =>
        simp only [hr] at h
        exact ih (i + 1) s ⟨tr.shots, tr.visited ++ [i]⟩ r out h
      | some fi =>
        simp only [hr] at h
        rcases stepAfterFrame_cases env total i step { s with frameIdx := fi }
            ⟨tr.shots, tr.visited ++ [i]⟩ r
            (fun s2 => stepLoop env total rest (i + 1) s2 ⟨tr.shots, tr.visited ++ [i]⟩ r) with
          ⟨s2, _, heq⟩ | ⟨e, sErr, _, heq⟩
        · rw [heq] at h
          exact ih (i + 1) s2 ⟨tr.shots, tr.visited ++ [i]⟩ r out h
        · rw [heq] at h
          exact absurd h (by simp)

lemma visited_push (tv : List Nat) (i j : Nat) (hij : i + 1 ≤ j) :
    (tv ++ [i]) ++ List.range' (i + 1) (j + 1 - (i + 1)) = tv ++ List.range' i (j + 1 - i) := by
  rw [List.append_assoc]
  congr 1
  have h2 : j + 1 - i = (j - i) + 1 := by omega
  have h3 : j + 1 - (i + 1) = j - i := by omega
  rw [h2, h3, List.range'_succ]
  rfl

lemma stepLoop_error (env : Env) (total : Nat) :
    ∀ (steps : List Step) (i : Nat) (s : RunState) (tr : Trace) (r : Result) (lf : LoopFail),
      stepLoop env total steps i s tr r = Except.error lf →
      i ≤ lf.idx ∧
      lf.trace.visited = tr.visited ++ List.range' i (lf.idx + 1 - i) ∧
      (lf.trace.shots, lf.result) =
        stepFail env lf.idx total lf.stepType lf.emsg lf.state tr.shots r := by
  intro steps
  induction steps with
  | nil =>
    intro i s tr r lf h
    simp [stepLoop] at h
  | cons step rest ih =>
    intro i s tr r lf h
    simp only [stepLoop] at h
    cases hf : step.frame with
    | none =>
      simp only [hf] at h
      rcases stepAfterFrame_cases env total i step s ⟨tr.shots, tr.visited ++ [i]⟩ r
          (fun s2 => stepLoop env total rest (i + 1) s2 ⟨tr.shots, tr.visited ++ [i]⟩ r) with
        ⟨s2, _, heq⟩ | ⟨e, sErr, _, heq⟩
      · rw [heq] at h
        obtain ⟨h1, h2, h3⟩ := ih (i + 1) s2 ⟨tr.shots, tr.visited ++ [i]⟩ r lf h
        exact ⟨by omega, by rw [h2]; exact visited_push tr.visited i lf.idx h1, h3⟩
      · rw [heq] at h
        cases h
        refine ⟨Nat.le_refl _, ?_, rfl⟩
        simp [List.range'_one]
    | some path =>
      simp only [hf] at h
      cases hrf : resolveFrame s path with
      | none =>
        simp only [hrf] at h
        obtain ⟨h1, h2, h3⟩ := ih (i + 1) s ⟨tr.shots, tr.visited ++ [i]⟩ r lf h
        exact ⟨by omega, by rw [h2]; exact visited_push tr.visited i lf.idx h1, h3⟩
      | some fi =>
        simp only [hrf] at h
        rcases stepAfterFrame_cases env total i step { s with frameIdx := fi }
            ⟨tr.shots, tr.visited ++ [i]⟩ r
            (fun s2 => stepLoop env total rest (i + 1) s2 ⟨tr.shots, tr.visited ++ [i]⟩ r) with
          ⟨s2, _, heq⟩ | ⟨e, sErr, _, heq⟩
        · rw [heq] at h
          obtain ⟨h1, h2, h3⟩ := ih (i + 1) s2 ⟨tr.shots, tr.visited ++ [i]⟩ r lf h
          exact ⟨by omega, by rw [h2]; exact visited_push tr.visited i lf.idx h1, h3⟩
        · rw [heq] at h
          cases h
          refine ⟨Nat.le_refl _, ?_, rfl⟩
          simp [List.range'_one]

lemma runBody_cases (env : Env) (rec : Recording) :
    (∃ e, env.launch = Except.error e ∧
       runBody env rec = Except.error ⟨none, e, none, ⟨0, []⟩, initResult env⟩) ∨
    (∃ lf, env.launch = Except.ok () ∧
       stepLoop env rec.steps.length rec.steps 0 (initState env) ⟨0, []⟩ (initResult env) =
         Except.error lf ∧
       runBody env rec =
         Except.error ⟨some (lf.idx, lf.stepType), lf.emsg, some lf.state, lf.trace, lf.result⟩) ∨
    (∃ s tr r e, env.launch = Except.ok () ∧
       stepLoop env rec.steps.length rec.steps 0 (initState env) ⟨0, []⟩ (initResult env) =
         Except.ok (s, tr, r) ∧
       env.teardown = Except.error e ∧
       runBody env rec = Except.error ⟨none, e, some s, tr, r⟩) ∨
    (∃ s tr r, env.launch = Except.ok () ∧
       stepLoop env rec.steps.length rec.steps 0 (initState env) ⟨0, []⟩ (initResult env) =
         Except.ok (s, tr, r) ∧
       env.teardown = Except.ok () ∧
       runBody env rec = Except.ok (s, tr, r)) := by
  cases hla : env.launch with
  | error e =>
    refine Or.inl ⟨e, rfl, ?_⟩
    simp [runBody, hla]
  | ok u =>
    cases u
    cases hl : stepLoop env rec.steps.length rec.steps 0 (initState env) ⟨0, []⟩ (initResult env) with
    | error lf =>
      refine Or.inr (Or.inl ⟨lf, rfl, rfl, ?_⟩)
      simp [runBody, hla, hl]
    | ok val =>
      obtain ⟨s, tr, r⟩ := val
      cases htd : env.teardown with
      | error e =>
        refine Or.inr (Or.inr (Or.inl ⟨s, tr, r, e, rfl, rfl, rfl, ?_⟩))
        simp [runBody, hla, hl, htd]
      | ok u2 =>
        cases u2
        refine Or.inr (Or.inr (Or.inr ⟨s, tr, r, rfl, rfl, rfl, ?_⟩))
        simp [runBody, hla, hl, htd]

lemma runBody_ok_inv (env : Env) (rec : Recording) (s : RunState) (tr : Trace) (r : Result) :
    runBody env rec = Except.ok (s, tr, r) →
    stepLoop env rec.steps.length rec.steps 0 (initState env) ⟨0, []⟩ (initResult env) =
      Except.ok (s, tr, r) := by
  intro h
  rcases runBody_cases env rec with ⟨e, _, hr⟩ | ⟨lf, _, hl, hr⟩ |
    ⟨s1, tr1, r1, e, _, hl, htd, hr⟩ | ⟨s1, tr1, r1, _, hl, htd, hr⟩ <;> rw [hr] at h
  · simp at h
  · simp at h
  · simp at h
  · simp only [Except.ok.injEq, Prod.mk.injEq] at h
    obtain ⟨h1, h2, h3⟩ := h
    rw [h1, h2, h3] at hl
    exact hl

lemma failedAtStep_inv (env : Env) (rec : Recording) (m : Nat) (ty : String)
    (h : failedAtStep env rec m ty = true) :
    ∃ lf : LoopFail,
      stepLoop env rec.steps.length rec.steps 0 (initState env) ⟨0, []⟩ (initResult env) =
        Except.error lf ∧
      lf.idx = m ∧ lf.stepType = ty ∧
      runBody env rec =
        Except.error ⟨some (m, ty), lf.emsg, some lf.state, lf.trace, lf.result⟩ := by
  unfold failedAtStep at h
  rcases runBody_cases env rec with ⟨e, _, hr⟩ | ⟨lf, _, hl, hr⟩ |
    ⟨s1, tr1, r1, e, _, hl, htd, hr⟩ | ⟨s1, tr1, r1, _, hl, htd, hr⟩ <;> rw [hr] at h <;> simp at h
  obtain ⟨h1, h2⟩ := h
  refine ⟨lf, hl, h1, h2, ?_⟩
  rw [h1, h2] at hr
  exact hr

lemma runBody_error_runTime (env : Env) (rec : Recording) (f : FailInfo) :
    runBody env rec = Except.error f → f.result.RunTime = env.runTime := by
  intro h
  rcases runBody_cases env rec with ⟨e, _, hr⟩ | ⟨lf, _, hl, hr⟩ |
    ⟨s1, tr1, r1, e, _, hl, htd, hr⟩ | ⟨s1, tr1, r1, _, hl, htd, hr⟩ <;> rw [hr] at h
  · injection h with h2
    subst h2
    rfl
  · injection h with h2
    subst h2
    obtain ⟨h1a, h2a, h3a⟩ := stepLoop_error env rec.steps.length rec.steps 0 (initState env)
      ⟨0, []⟩ (initResult env) lf hl
    have hres : lf.result =
        (stepFail env lf.idx rec.steps.length lf.stepType lf.emsg lf.state 0 (initResult env)).2 :=
      congrArg Prod.snd h3a
    show lf.result.RunTime = env.runTime
    rw [hres]
    exact (stepFail_result env lf.idx rec.steps.length lf.stepType lf.emsg lf.state 0
      (initResult env)).2.2
  · injection h with h2
    subst h2
    have hrr : r1 = initResult env :=
      (stepLoop_ok env rec.steps.length rec.steps 0 (initState env) ⟨0, []⟩
        (initResult env) (s1, tr1, r1) hl).1
    show r1.RunTime = env.runTime
    rw [hrr]
    rfl
  · simp at h

lemma run_test_eq (env : Env) (rec : Recording) :
    (∀ s tr r, runBody env rec = Except.ok (s, tr, r) →
       run_test env rec = { r with DurationMs := env.elapsedMs }) ∧
    (∀ f, runBody env rec = Except.error f →
       run_test env rec = { (outerHandler env f).2 with DurationMs := env.elapsedMs } ∧
       (runTestTraced env rec).2 = (outerHandler env f).1) := by
  constructor
  · intro s tr r h
    simp [run_test, runTestTraced, h]
  · intro f h
    constructor <;> simp [run_test, runTestTraced, h]

lemma run_test_duration (env : Env) (rec : Recording) :
    (run_test env rec).DurationMs = env.elapsedMs := by
  cases hb : runBody env rec with
  | ok val =>
    obtain ⟨s, tr, r⟩ := val
    rw [(run_test_eq env rec).1 s tr r hb]
  | error f =>
    rw [((run_test_eq env rec).2 f hb).1]

/-- C1.  One playback invocation always yields exactly one result
value: run test is a total function of the driver oracle and the
recording, mirroring the try/except/finally of the source in which the
finally clause returns the result dictionary on every path.  DurationMs
is always stamped with the wall-clock time elapsed since invocation
start (a Nat, hence non-negative) and RunTime with the start timestamp,
and this holds unconditionally, in particular for an oracle whose
session teardown raises. -/
theorem playback_always_returns (env : Env) (rec : Recording) :
    (run_test env rec).DurationMs = env.elapsedMs ∧
    (run_test env rec).RunTime = env.runTime ∧
    (run_test { env with teardown := Except.error "nedkoppling misslyckades" } rec).DurationMs =
      env.elapsedMs := by
  refine ⟨run_test_duration env rec, ?_, run_test_duration _ rec⟩
  cases hb : runBody env rec with
  | ok val =>
    obtain ⟨s, tr, r⟩ := val
    rw [(run_test_eq env rec).1 s tr r hb]
    have hr : r = initResult env :=
      (stepLoop_ok env rec.steps.length rec.steps 0 (initState env) ⟨0, []⟩
        (initResult env) (s, tr, r) (runBody_ok_inv env rec s tr r hb)).1
    show r.RunTime = env.runTime
    rw [hr]
    rfl
  | error f =>
    rw [((run_test_eq env rec).2 f hb).1]
    show ((outerHandler env f).2).RunTime = env.runTime
    rw [(outerHandler_fields env f).2.1]
    exact runBody_error_runTime env rec f hb

/-- C2.  Fail-fast: when playback raises out of step m (0-based), the
loop has iterated exactly the steps 0..m, so steps m+1..N-1 are never
executed; the returned result has Status failed and its ErrorMessage is
the step message naming step m+1 of N, referencing the failing step
with 1-based indexing. -/
theorem fail_fast (env : Env) (rec : Recording) (m : Nat) (ty : String)
    (h : failedAtStep env rec m ty = true) :
    failVisited env rec = some (List.range (m + 1)) ∧
    (run_test env rec).Status = "failed" ∧
    ∃ emsg, (run_test env rec).ErrorMessage = some (stepMsg (m + 1) rec.steps.length ty emsg) := by
  obtain ⟨lf, hl, hidx, hty, hbody⟩ := failedAtStep_inv env rec m ty h
  obtain ⟨h1, h2, h3⟩ := stepLoop_error env rec.steps.length rec.steps 0 (initState env)
    ⟨0, []⟩ (initResult env) lf hl
  have hres : lf.result =
      (stepFail env lf.idx rec.steps.length lf.stepType lf.emsg lf.state 0 (initResult env)).2 :=
    congrArg Prod.snd h3
  have hmsg : lf.result.ErrorMessage =
      some (stepMsg (m + 1) rec.steps.length ty lf.emsg) := by
    rw [hres, ← hidx, ← hty]
    exact (stepFail_result env lf.idx rec.steps.length lf.stepType lf.emsg lf.state 0
      (initResult env)).2.1
  refine ⟨?_, ?_, ⟨lf.emsg, ?_⟩⟩
  · simp only [failVisited, hbody]
    show some lf.trace.visited = some (List.range (m + 1))
    rw [h2, hidx]
    simp [List.range_eq_range']
  · rw [((run_test_eq env rec).2 _ hbody).1]
    exact (outerHandler_fields env _).1
  · rw [((run_test_eq env rec).2 _ hbody).1]
    show ((outerHandler env _).2).ErrorMessage = _
    rw [(outerHandler_fields env _).2.2]
    show (if pyFalsyOptStr lf.result.ErrorMessage then some lf.emsg
          else lf.result.ErrorMessage) = _
    rw [hmsg, stepMsg_not_falsy]
    simp

/-- Witness for C2 at a two-step recording whose first step is a
rejected navigation: only step 0 is iterated, the run fails, and the
message names step 1 of 2. -/
theorem fail_fast_witness :
    failVisited benignEnv navRec2 = some (List.range 1) ∧
    (run_test benignEnv navRec2).Status = "failed" ∧
    ∃ emsg, (run_test benignEnv navRec2).ErrorMessage = some (stepMsg 1 2 "navigate" emsg) := by
  exact fail_fast benignEnv navRec2 0 "navigate" (by rfl)

/-- C6.  First failure wins: when a step-level except clause has set
ErrorMessage, the outer except clause leaves it unchanged, so the
returned ErrorMessage is exactly the step-level message. -/
theorem first_failure_message_preserved (env : Env) (rec : Recording) (m : Nat) (ty : String)
    (h : failedAtStep env rec m ty = true) :
    ∃ f, bodyFailInfo env rec = some f ∧
      (run_test env rec).ErrorMessage = f.result.ErrorMessage ∧
      f.result.ErrorMessage = some (stepMsg (m + 1) rec.steps.length ty f.msg) := by
  obtain ⟨lf, hl, hidx, hty, hbody⟩ := failedAtStep_inv env rec m ty h
  obtain ⟨h1, h2, h3⟩ := stepLoop_error env rec.steps.length rec.steps 0 (initState env)
    ⟨0, []⟩ (initResult env) lf hl
  have hres : lf.result =
      (stepFail env lf.idx rec.steps.length lf.stepType lf.emsg lf.state 0 (initResult env)).2 :=
    congrArg Prod.snd h3
  have hmsg : lf.result.ErrorMessage =
      some (stepMsg (m + 1) rec.steps.length ty lf.emsg) := by
    rw [hres, ← hidx, ← hty]
    exact (stepFail_result env lf.idx rec.steps.length lf.stepType lf.emsg lf.state 0
      (initResult env)).2.1
  refine ⟨⟨some (m, ty), lf.emsg, some lf.state, lf.trace, lf.result⟩, ?_, ?_, hmsg⟩
  · simp [bodyFailInfo, hbody]
  · rw [((run_test_eq env rec).2 _ hbody).1]
    show ((outerHandler env _).2).ErrorMessage = lf.result.ErrorMessage
    rw [(outerHandler_fields env _).2.2]
    show (if pyFalsyOptStr lf.result.ErrorMessage then some lf.emsg
          else lf.result.ErrorMessage) = lf.result.ErrorMessage
    rw [hmsg, stepMsg_not_falsy]
    simp

/-- Witness for C6: the step-level message of a rejected navigation
survives the outer except clause unchanged. -/
theorem first_failure_message_witness :
    ∃ f, bodyFailInfo benignEnv navRec1 = some f ∧
      (run_test benignEnv navRec1).ErrorMessage = f.result.ErrorMessage ∧
      f.result.ErrorMessage = some (stepMsg 1 1 "navigate" f.msg) := by
  exact first_failure_message_preserved benignEnv navRec1 0 "navigate" (by rfl)

/-- C9.  A result whose Status is passed carries no screenshot: the
screenshot fields are written only inside the two except clauses, both
of which force Status to failed first, so a passed result keeps
ScreenshotBase64 unset and ScreenshotMissing true. -/
theorem passed_implies_no_screenshot (env : Env) (rec : Recording)
    (h : (run_test env rec).Status = "passed") :
    (run_test env rec).ScreenshotBase64 = none ∧ (run_test env rec).ScreenshotMissing = true := by
  cases hb : runBody env rec with
  | ok val =>
    obtain ⟨s, tr, r⟩ := val
    have hr : r = initResult env :=
      (stepLoop_ok env rec.steps.length rec.steps 0 (initState env) ⟨0, []⟩
        (initResult env) (s, tr, r) (runBody_ok_inv env rec s tr r hb)).1
    rw [(run_test_eq env rec).1 s tr r hb]
    constructor
    · show r.ScreenshotBase64 = none
      rw [hr]
      rfl
    · show r.ScreenshotMissing = true
      rw [hr]
      rfl
  | error f =>
    exfalso
    rw [((run_test_eq env rec).2 f hb).1] at h
    have hcontra : ("failed" : String) = "passed" := by
      rw [← (outerHandler_fields env f).1]
      exact h
    exact absurd hcontra (by decide)

/-- Witness for C9: the empty recording under the benign oracle passes
with no screenshot attached. -/
theorem passed_implies_no_screenshot_witness :
    (run_test benignEnv emptyRec).Status = "passed" ∧
    (run_test benignEnv emptyRec).ScreenshotBase64 = none ∧
    (run_test benignEnv emptyRec).ScreenshotMissing = true := by
  have h := passed_implies_no_screenshot benignEnv emptyRec (by rfl)
  exact ⟨by rfl, h.1, h.2⟩

/-- C8 (code evaluated at the failing input).  A recording consisting
of one close step under a fully benign driver oracle: page.close()
succeeds and marks the page closed, but the debug line that follows
every step body fetches page.title() on the now-closed page, which
raises a TargetClosedError; the step therefore fails, the run is marked
failed with the step message, and the evidence screenshot is skipped
because the page is closed. -/
theorem close_step_fails :
    (run_test benignEnv closeRec).Status = "failed" ∧
    (run_test benignEnv closeRec).ErrorMessage =
      some (stepMsg 1 1 "close" targetClosedMsg) ∧
    (run_test benignEnv closeRec).ScreenshotMissing = true := by
  exact ⟨rfl, rfl, rfl⟩

/-! Frame handling. -/

lemma stepAfterFrame_frame_irrel (env : Env) (total i : Nat) (step : Step) (s : RunState)
    (tr : Trace) (r : Result) (k : RunState → Except LoopFail (RunState × Trace × Result))
    (fr : Option (List Nat)) :
    stepAfterFrame env total i { step with frame := fr } s tr r k =
      stepAfterFrame env total i step s tr r k := by
  cases step
  rfl

/-- C10.  Frame paths: only the head of the path is consulted, against
the flat frames list of the current page.  An in-range head switches
the active frame before the step body runs and the continuation (all
later steps) starts from the switched state; an out-of-range head skips
the step, leaving state and result untouched, and playback continues
with the next step; the tail of the path never influences the loop. -/
theorem frame_switch (env : Env) (total i : Nat) (step : Step) (rest : List Step)
    (s : RunState) (tr : Trace) (r : Result) (fi : Nat) (tl tl2 : List Nat)
    (hf : step.frame = some (fi :: tl)) :
    (fi < (currentPage s).numFrames →
       stepLoop env total (step :: rest) i s tr r =
         stepAfterFrame env total i step { s with frameIdx := fi }
           ⟨tr.shots, tr.visited ++ [i]⟩ r
           (fun s2 => stepLoop env total rest (i + 1) s2 ⟨tr.shots, tr.visited ++ [i]⟩ r)) ∧
    (¬ fi < (currentPage s).numFrames →
       stepLoop env total (step :: rest) i s tr r =
         stepLoop env total rest (i + 1) s ⟨tr.shots, tr.visited ++ [i]⟩ r) ∧
    stepLoop env total ({ step with frame := some (fi :: tl2) } :: rest) i s tr r =
      stepLoop env total (step :: rest) i s tr r := by
  refine ⟨?_, ?_, ?_⟩
  · intro hlt
    simp only [stepLoop, hf, resolveFrame]
    rw [if_pos hlt]
  · intro hge
    simp only [stepLoop, hf, resolveFrame]
    rw [if_neg hge]
  · cases step with
    | mk ty fr tmo u sel so ta w hh =>
      simp only at hf
      subst hf
      simp only [stepLoop, resolveFrame]
      by_cases hlt : fi < (currentPage s).numFrames
      · rw [if_pos hlt]
        exact stepAfterFrame_frame_irrel env total i
          ⟨ty, some (fi :: tl), tmo, u, sel, so, ta, w, hh⟩
          { s with frameIdx := fi } ⟨tr.shots, tr.visited ++ [i]⟩ r _ (some (fi :: tl2))
      · rw [if_neg hlt]

/-- Witness for C10: a frame path with head 0 on a one-frame page
switches the active frame to 0 and the step body runs from the switched
state. -/
theorem frame_switch_witness :
    stepLoop benignEnv 1 [frameStep] 0 (initState benignEnv) ⟨0, []⟩ (initResult benignEnv) =
      stepAfterFrame benignEnv 1 0 frameStep { initState benignEnv with frameIdx := 0 }
        ⟨0, [0]⟩ (initResult benignEnv)
        (fun s2 => stepLoop benignEnv 1 [] 1 s2 ⟨0, [0]⟩ (initResult benignEnv)) := by
  exact (frame_switch benignEnv 1 0 frameStep [] (initState benignEnv) ⟨0, []⟩
    (initResult benignEnv) 0 [5] [] (by rfl)).1 (by decide)

/-! Evidence capture after a step failure. -/

/-- Counterexample for C5 as stated: the claim says that after a step
failure a single screenshot capture is attempted and that on a capture
failure ScreenshotBase64 stays unset.  In the code the step-level
except clause captures once and then re-raises, and the outer except
clause captures again: with every capture succeeding the counter shows
two capture calls for one failing step, and with only the first capture
succeeding the returned result has ScreenshotMissing true while
ScreenshotBase64 still holds the first capture. -/
theorem evidence_double_capture_ctrex :
    (runTestTraced benignEnv navRec1).2 = 2 ∧
    (run_test envShotsFirst navRec1).ScreenshotMissing = true ∧
    (run_test envShotsFirst navRec1).ScreenshotBase64 = some "shot0" := by
  exact ⟨rfl, rfl, rfl⟩

/-- C5 (amended).  After a step failure the engine enters the evidence
capture block twice: once in the step-level except clause and once more
in the outer except clause after the re-raise.  With the current page
still open this makes exactly two capture calls, and when the capture
oracle is constant across attempts the claimed field outcomes hold:
captures succeeding leave ScreenshotBase64 set (by the second capture)
with ScreenshotMissing false, captures failing leave ScreenshotBase64
unset with ScreenshotMissing true.  With the current page already
closed both handlers skip the capture call, so no capture call is
made, ScreenshotBase64 stays unset and ScreenshotMissing is true.
Status is failed in every case. -/
theorem evidence_capture_two_attempts (env : Env) (rec : Recording) (m : Nat) (ty : String)
    (b : Bool)
    (hconst : ∀ n, env.screenshotOk n = b)
    (h : failedAtStep env rec m ty = true) :
    (run_test env rec).Status = "failed" ∧
    (failPageOpen env rec = true →
       (runTestTraced env rec).2 = 2 ∧
       (b = true → (run_test env rec).ScreenshotBase64 = some (env.shotData 1) ∧
          (run_test env rec).ScreenshotMissing = false) ∧
       (b = false → (run_test env rec).ScreenshotBase64 = none ∧
          (run_test env rec).ScreenshotMissing = true)) ∧
    (failPageOpen env rec = false →
       (runTestTraced env rec).2 = 0 ∧
       (run_test env rec).ScreenshotBase64 = none ∧
       (run_test env rec).ScreenshotMissing = true) := by
  obtain ⟨lf, hl, hidx, hty, hbody⟩ := failedAtStep_inv env rec m ty h
  obtain ⟨h1, h2, h3⟩ := stepLoop_error env rec.steps.length rec.steps 0 (initState env)
    ⟨0, []⟩ (initResult env) lf hl
  have hb0 : env.screenshotOk 0 = b := hconst 0
  have hb1 : env.screenshotOk 1 = b := hconst 1
  have hrun := (run_test_eq env rec).2 _ hbody
  have hcap0 : (lf.trace.shots, lf.result) = captureEvidence env lf.state 0
      { initResult env with
        Status := "failed"
        ErrorMessage := some (stepMsg (lf.idx + 1) rec.steps.length lf.stepType lf.emsg)
        ErrorStack := some ("Traceback: " ++ lf.emsg) } := by
    rw [h3]
    rfl
  refine ⟨?_, ?_, ?_⟩
  · rw [hrun.1]
    exact (outerHandler_fields env _).1
  · intro hpo
    have hopen2 : (currentPage lf.state).closed = false := by
      unfold failPageOpen at hpo
      rw [hbody] at hpo
      simpa using hpo
    have hcap := hcap0
    unfold captureEvidence at hcap
    rw [if_pos hopen2, hb0] at hcap
    cases b with
    | true =>
      simp only [if_true] at hcap
      simp only [Prod.mk.injEq] at hcap
      obtain ⟨hsh, hres⟩ := hcap
      have hmsg : lf.result.ErrorMessage =
          some (stepMsg (lf.idx + 1) rec.steps.length lf.stepType lf.emsg) := by
        rw [hres]
      have houter : outerHandler env ⟨some (m, ty), lf.emsg, some lf.state, lf.trace, lf.result⟩ =
          (2, { lf.result with
                Status := "failed"
                ErrorStack := some ("Traceback: " ++ lf.emsg)
                ScreenshotBase64 := some (env.shotData 1)
                ScreenshotMissing := false }) := by
        unfold outerHandler
        simp only [hmsg, stepMsg_not_falsy, Bool.false_eq_true, if_false]
        unfold captureEvidence
        rw [if_pos hopen2]
        show (if env.screenshotOk lf.trace.shots then _ else _) = _
        rw [hsh, hb1]
        simp
      refine ⟨?_, ?_, ?_⟩
      · rw [hrun.2, houter]
      · intro _
        rw [hrun.1, houter]
        exact ⟨rfl, rfl⟩
      · intro hfalse
        cases hfalse
    | false =>
      simp only [Bool.false_eq_true, if_false] at hcap
      simp only [Prod.mk.injEq] at hcap
      obtain ⟨hsh, hres⟩ := hcap
      have hmsg : lf.result.ErrorMessage =
          some (stepMsg (lf.idx + 1) rec.steps.length lf.stepType lf.emsg) := by
        rw [hres]
      have hb64 : lf.result.ScreenshotBase64 = none := by
        rw [hres]
        rfl
      have houter : outerHandler env ⟨some (m, ty), lf.emsg, some lf.state, lf.trace, lf.result⟩ =
          (2, { lf.result with
                Status := "failed"
                ErrorStack := some ("Traceback: " ++ lf.emsg)
                ScreenshotMissing := true }) := by
        unfold outerHandler
        simp only [hmsg, stepMsg_not_falsy, Bool.false_eq_true, if_false]
        unfold captureEvidence
        rw [if_pos hopen2]
        show (if env.screenshotOk lf.trace.shots then _ else _) = _
        rw [hsh, hb1]
        simp
      refine ⟨?_, ?_, ?_⟩
      · rw [hrun.2, houter]
      · intro htrue
        cases htrue
      · intro _
        rw [hrun.1, houter]
        exact ⟨hb64, rfl⟩
  · intro hpo
    have hclosed : (currentPage lf.state).closed = true := by
      unfold failPageOpen at hpo
      rw [hbody] at hpo
      simpa using hpo
    have hne : ¬ (currentPage lf.state).closed = false := by
      rw [hclosed]
      decide
    have hcap := hcap0
    unfold captureEvidence at hcap
    rw [if_neg hne] at hcap
    simp only [Prod.mk.injEq] at hcap
    obtain ⟨hsh, hres⟩ := hcap
    have hmsg : lf.result.ErrorMessage =
        some (stepMsg (lf.idx + 1) rec.steps.length lf.stepType lf.emsg) := by
      rw [hres]
    have hb64 : lf.result.ScreenshotBase64 = none := by
      rw [hres]
      rfl
    have houter : outerHandler env ⟨some (m, ty), lf.emsg, some lf.state, lf.trace, lf.result⟩ =
        (0, { lf.result with
              Status := "failed"
              ErrorStack := some ("Traceback: " ++ lf.emsg)
              ScreenshotMissing := true }) := by
      unfold outerHandler
      simp only [hmsg, stepMsg_not_falsy, Bool.false_eq_true, if_false]
      unfold captureEvidence
      rw [if_neg hne]
      show (lf.trace.shots, _) = _
      rw [hsh]
    refine ⟨?_, ?_, ?_⟩
    · rw [hrun.2, houter]
    · rw [hrun.1, houter]
      exact hb64
    · rw [hrun.1, houter]

/-- Witness for C5 (amended), exercising both cases: a rejected
navigation with every capture failing (page open) yields a failed
result with two capture calls, no screenshot data and
ScreenshotMissing true; a close step (page closed at the failure)
yields a failed result with zero capture calls, no screenshot data and
ScreenshotMissing true. -/
theorem evidence_capture_two_attempts_witness :
    ((run_test envShotsOff navRec1).Status = "failed" ∧
     (runTestTraced envShotsOff navRec1).2 = 2 ∧
     (run_test envShotsOff navRec1).ScreenshotBase64 = none ∧
     (run_test envShotsOff navRec1).ScreenshotMissing = true) ∧
    ((run_test envShotsOff closeRec).Status = "failed" ∧
     (runTestTraced envShotsOff closeRec).2 = 0 ∧
     (run_test envShotsOff closeRec).ScreenshotBase64 = none ∧
     (run_test envShotsOff closeRec).ScreenshotMissing = true) := by
  have ha := evidence_capture_two_attempts envShotsOff navRec1 0 "navigate" false
    (fun _ => rfl) (by rfl)
  have hb := evidence_capture_two_attempts envShotsOff closeRec 0 "close" false
    (fun _ => rfl) (by rfl)
  have ha2 := ha.2.1 (by rfl)
  have hb2 := hb.2.2 (by rfl)
  exact ⟨⟨ha.1, ha2.1, (ha2.2.2 rfl).1, (ha2.2.2 rfl).2⟩,
    ⟨hb.1, hb2.1, hb2.2.1, hb2.2.2⟩⟩

end HlxEngine
